import Mathlib

/-!
# minko::data::Provider — property store with change notification

Shallow embedding of `framework/include/minko/data/Provider.hpp`.

* The payload types a store can hold are an arbitrary family `Val : Ty → Type`
  indexed by run-time type identifiers `Ty` (C++ `typeid`), each with its own
  `operator==` (`BEq`).
* `std::unordered_map<std::string, Any>` is a finite partial map; it is embedded as
  `String → Option Any` (unique keys, no order).
* Every member function takes the store and returns an `Outcome`: the value returned
  or the exception thrown, the store after the call, and the signals dispatched
  during the call, oldest first.
* `formatPropertyName` is declared in the header but defined elsewhere; it is a
  parameter of every operation that calls it.
* Subscribers are not part of the model. A dispatch is recorded together with the state
  the store is in when `set` makes the call; callbacks that themselves mutate the store
  are outside the model.
-/

namespace minko
namespace data

/-- Exceptions thrown by the accessors: `std::out_of_range` (from `unordered_map::at`),
the failed cast of an `Any`, and `std::invalid_argument`. -/
inductive Failure where
  | OutOfRange
  | TypeMismatch
  | InvalidArgument
  deriving DecidableEq, Repr

/-- The three signals owned by a store (`_propertyAdded`, `_propertyChanged`,
`_propertyRemoved`). -/
inductive Channel where
  | propertyAdded
  | propertyChanged
  | propertyRemoved
  deriving DecidableEq, Repr

/-- Modelled from the spec: the type-erased holder `Any` of `minko/Any.hpp`, which is not
among the sources. "Each holder stores exactly one concrete type at a time": a holder is
a run-time type tag together with a value of that type. -/
structure Any (Ty : Type) (Val : Ty → Type) where
  type : Ty
  held : Val type

/-- Modelled from the spec: `Any::cast<T>` of `minko/Any.hpp`, which is not among the
sources. A holder "must reject retrieval with a mismatched requested type"; the accessors
fail "with `TypeMismatch` (via the underlying cast) if the stored type differs from `T`".
On a matching type the cast gives access to the held value. -/
def Any.cast {Ty : Type} [DecidableEq Ty] {Val : Ty → Type} (T : Ty) (operand : Any Ty Val) :
    Except Failure (Val T) :=
  if h : operand.type = T then .ok (h ▸ operand.held) else .error .TypeMismatch

/-- The data members of `Provider`: `_key`, `_values`, `_uuid`. The three signal objects
are represented by the dispatch record of `Outcome`. -/
structure Provider (Ty : Type) (Val : Ty → Type) where
  _key : String
  _values : String → Option (Any Ty Val)
  _uuid : String

/-- One call of `Signal::execute(shared_from_this(), name)`: the channel, the store handed
to the subscribers (in the state it has at the moment of the dispatch) and the property
name handed to them. -/
structure Emission (Ty : Type) (Val : Ty → Type) where
  channel : Channel
  sender : Provider Ty Val
  name : String

/-- What a member function call leaves behind: the returned value or the thrown failure,
the store after the call, and the signals dispatched during the call in dispatch order. -/
structure Outcome (Ty : Type) (Val : Ty → Type) (α : Type) where
  result : Except Failure α
  store : Provider Ty Val
  fired : List (Emission Ty Val)

section Operations

variable {Ty : Type} [DecidableEq Ty] {Val : Ty → Type} [∀ t, BEq (Val t)]

/-- Member `key()`. -/
def Provider.key (self : Provider Ty Val) : String := self._key

/-- Member `uuid()`. -/
def Provider.uuid (self : Provider Ty Val) : String := self._uuid

/-- Member `values()`. -/
def Provider.values (self : Provider Ty Val) : String → Option (Any Ty Val) := self._values

/-- Member `hasProperty`: `_values.count(skip ? name : formatPropertyName(name)) != 0`. -/
def Provider.hasProperty (formatPropertyName : Provider Ty Val → String → String)
    (self : Provider Ty Val) (name : String) (skipPropertyNameFormatting : Bool) :
    Outcome Ty Val Bool :=
  ⟨.ok (self._values
      (if skipPropertyNameFormatting then name else formatPropertyName self name)).isSome,
    self, []⟩

/-- Member `get<T>`: `*Any::cast<T>(&_values.at(skip ? name : formatPropertyName(name)))`.
`unordered_map::at` throws `std::out_of_range` on a missing key. -/
def Provider.get (formatPropertyName : Provider Ty Val → String → String)
    (self : Provider Ty Val) (T : Ty) (name : String) (skipPropertyNameFormatting : Bool) :
    Outcome Ty Val (Val T) :=
  match self._values
      (if skipPropertyNameFormatting then name else formatPropertyName self name) with
  | none => ⟨.error .OutOfRange, self, []⟩
  | some stored => ⟨Any.cast T stored, self, []⟩

/-- Member `getPointer<T>`: as `get<T>` without the dereference; the pointer is
represented by the value it points to. -/
def Provider.getPointer (formatPropertyName : Provider Ty Val → String → String)
    (self : Provider Ty Val) (T : Ty) (name : String) (skipPropertyNameFormatting : Bool) :
    Outcome Ty Val (Val T) :=
  match self._values
      (if skipPropertyNameFormatting then name else formatPropertyName self name) with
  | none => ⟨.error .OutOfRange, self, []⟩
  | some stored => ⟨Any.cast T stored, self, []⟩

/-- Member `set<T>`. The returned `Ptr` is `shared_from_this()`, i.e. the store of the
outcome, so the returned value carries no further information. -/
def Provider.set (formatPropertyName : Provider Ty Val → String → String)
    (self : Provider Ty Val) (T : Ty) (name : String) (value : Val T)
    (skipPropertyNameFormatting : Bool) : Outcome Ty Val Unit :=
  let formattedPropertyName :=
    if skipPropertyNameFormatting then name else formatPropertyName self name
  match self._values formattedPropertyName with
  | some stored =>
    -- `_values.count(formattedPropertyName) != 0`
    match Any.cast T stored with
    | .error e => ⟨.error e, self, []⟩
    | .ok ptr =>
      let changed := !(ptr == value)
      -- `*ptr = value`
      let self1 : Provider Ty Val :=
        { self with
          _values := Function.update self._values formattedPropertyName (some ⟨T, value⟩) }
      if changed then
        ⟨.ok (), self1, [⟨.propertyChanged, self1, name⟩]⟩
      else
        ⟨.ok (), self1, []⟩
  | none =>
    -- `_values[formattedPropertyName] = value`
    let self1 : Provider Ty Val :=
      { self with
        _values := Function.update self._values formattedPropertyName (some ⟨T, value⟩) }
    ⟨.ok (), self1, [⟨.propertyAdded, self1, name⟩, ⟨.propertyChanged, self1, name⟩]⟩

/-- Member `propertyHasType<T>`: `std::invalid_argument` on a missing key, otherwise
`false` when the cast of the stored holder throws and `true` when it does not. -/
def Provider.propertyHasType (formatPropertyName : Provider Ty Val → String → String)
    (self : Provider Ty Val) (T : Ty) (name : String) (skipPropertyNameFormatting : Bool) :
    Outcome Ty Val Bool :=
  let formattedName :=
    if skipPropertyNameFormatting then name else formatPropertyName self name
  match self._values formattedName with
  | none => ⟨.error .InvalidArgument, self, []⟩
  | some stored =>
    match Any.cast T stored with
    | .error _ => ⟨.ok false, self, []⟩
    | .ok _ => ⟨.ok true, self, []⟩

end Operations

/-! ## A small concrete payload universe, used to run the operations on examples -/

/-- Two payload types for examples: `int` and `std::string`. -/
inductive SampleType where
  | int
  | string
  deriving DecidableEq, Repr

/-- The values of the sample payload types. -/
def SampleType.Value : SampleType → Type
  | .int => Int
  | .string => String

instance SampleType.instBEqValue : ∀ t : SampleType, BEq (SampleType.Value t)
  | .int => inferInstanceAs (BEq Int)
  | .string => inferInstanceAs (BEq String)

instance SampleType.instLawfulBEqValue : ∀ t : SampleType, LawfulBEq (SampleType.Value t)
  | .int => inferInstanceAs (LawfulBEq Int)
  | .string => inferInstanceAs (LawfulBEq String)

/-- The result of `Provider::create("material")`: no property yet. -/
def emptyMaterial : Provider SampleType SampleType.Value :=
  { _key := "material", _values := fun _ => none, _uuid := "uuid-0" }

/-- The store `emptyMaterial` after `set("color", 255)`. -/
def redMaterial : Provider SampleType SampleType.Value :=
  { _key := "material"
    _values := Function.update (fun _ => none) "color" (some ⟨SampleType.int, (255 : Int)⟩)
    _uuid := "uuid-0" }

/-- A formatting function for examples: the name is the storage key. -/
def literalName : Provider SampleType SampleType.Value → String → String :=
  fun _ name => name

/-- A formatting function for examples that does rename: it qualifies the name with the
store's key. -/
def qualifiedName : Provider SampleType SampleType.Value → String → String :=
  fun self name => self._key ++ "." ++ name

/-! ### A payload type whose `operator==` is coarser than identity -/

/-- The two zeros of a `float` payload. They are different values (they differ in the
sign bit), and `operator==` on `float` does not tell them apart. -/
inductive FloatZero where
  | positive
  | negative

/-- A payload universe for examples with the single type `float`, restricted to its two
zeros. -/
inductive ZeroType where
  | float
  deriving DecidableEq, Repr

/-- The values of the payload type of `ZeroType`. -/
def ZeroType.Value : ZeroType → Type
  | .float => FloatZero

/-- Comparison of two zeros with `operator==`: always `true`. -/
instance ZeroType.instBEqValue : ∀ t : ZeroType, BEq (ZeroType.Value t)
  | .float => ⟨fun _ _ => true⟩

/-- The `float` payload `+0`. -/
def plusZero : ZeroType.Value ZeroType.float := FloatZero.positive

/-- The `float` payload `-0`. -/
def minusZero : ZeroType.Value ZeroType.float := FloatZero.negative

/-- A store holding the `float` `+0` under `"x"`. -/
def zeroStore : Provider ZeroType ZeroType.Value :=
  { _key := "k"
    _values := Function.update (fun _ => none) "x" (some ⟨ZeroType.float, plusZero⟩)
    _uuid := "uuid-1" }

/-- A formatting function for examples on `zeroStore`: the name is the storage key. -/
def zeroName : Provider ZeroType ZeroType.Value → String → String :=
  fun _ name => name

end data

/-! ## minko::scene::Layout — the layout masks of `framework/src/minko/scene/Layout.cpp` -/

namespace scene

/-- Conversion of a C++ integer value to `LayoutMask`. The typedef `LayoutMask` is declared
in `minko/scene/Layout.hpp`, which is not among the sources, so its width in bits is the
parameter `w`. A mask is represented by its bit pattern, a natural number below `2 ^ w`;
in two's complement the conversion is reduction modulo `2 ^ w`. -/
def LayoutMask.ofInt (w : Nat) (n : Int) : Nat := (n % (2 : Int) ^ w).toNat

/-- Constant `Layout::NOTHING = 0`. -/
def Layout.NOTHING (w : Nat) : Nat := LayoutMask.ofInt w 0

/-- Constant `Layout::EVERYTHING = -1`. -/
def Layout.EVERYTHING (w : Nat) : Nat := LayoutMask.ofInt w (-1)

/-- Constant `Layout::DEFAULT = 1 << 0`. -/
def Layout.DEFAULT (w : Nat) : Nat := LayoutMask.ofInt w ((1 <<< 0 : Nat) : Int)

/-- Constant `Layout::STATIC = 1 << 1`. -/
def Layout.STATIC (w : Nat) : Nat := LayoutMask.ofInt w ((1 <<< 1 : Nat) : Int)

/-- Constant `Layout::IGNORE_RAYCASTING = 1 << 16`. -/
def Layout.IGNORE_RAYCASTING (w : Nat) : Nat := LayoutMask.ofInt w ((1 <<< 16 : Nat) : Int)

/-- Constant `Layout::DEFAULT_RAYCASTING = EVERYTHING ^ IGNORE_RAYCASTING`. Its definition
precedes that of `IGNORE_RAYCASTING` in the file; `IGNORE_RAYCASTING` has a constant
initialiser, so it already has its value when this initialiser is evaluated. The
exclusive-or of two bit patterns below `2 ^ w` is below `2 ^ w`, so no reduction is
needed. -/
def Layout.DEFAULT_RAYCASTING (w : Nat) : Nat :=
  Layout.EVERYTHING w ^^^ Layout.IGNORE_RAYCASTING w

end scene

namespace data

/-! ## Theorems -/

section CastLemmas

variable {Ty : Type} [DecidableEq Ty] {Val : Ty → Type}

/-- The cast of a holder to its own type succeeds with the held value. -/
theorem Any.cast_mk (T : Ty) (v : Val T) : Any.cast T (⟨T, v⟩ : Any Ty Val) = .ok v := by
  simp [Any.cast]

/-- The cast of a holder to another type fails with `TypeMismatch`. -/
theorem Any.cast_of_ne (T : Ty) (a : Any Ty Val) (h : a.type ≠ T) :
    Any.cast T a = .error .TypeMismatch := by
  simp [Any.cast, h]

/-- The cast of a holder succeeds exactly when the holder has the requested type. -/
theorem Any.cast_isOk_iff (T : Ty) (a : Any Ty Val) :
    (∃ v, Any.cast T a = .ok v) ↔ a.type = T := by
  constructor
  · rintro ⟨v, hv⟩
    by_contra hne
    rw [Any.cast_of_ne T a hne] at hv
    cases hv
  · rintro rfl
    exact ⟨a.held, Any.cast_mk _ _⟩

end CastLemmas

section Accessors

variable {Ty : Type} [DecidableEq Ty] {Val : Ty → Type}

/-- C5: when the storage key is absent, `get<T>(name)` and `getPointer<T>(name)` both fail
with `OutOfRange`, leave the store exactly as it was and dispatch no signal. -/
theorem get_absent_fails_out_of_range
    (formatPropertyName : Provider Ty Val → String → String)
    (self : Provider Ty Val) (T : Ty) (name : String) (skip : Bool)
    (habsent : self._values (if skip then name else formatPropertyName self name) = none) :
    (self.get formatPropertyName T name skip).result = .error .OutOfRange ∧
    (self.get formatPropertyName T name skip).store = self ∧
    (self.get formatPropertyName T name skip).fired = [] ∧
    (self.getPointer formatPropertyName T name skip).result = .error .OutOfRange ∧
    (self.getPointer formatPropertyName T name skip).store = self ∧
    (self.getPointer formatPropertyName T name skip).fired = [] := by
  simp only [Provider.get, Provider.getPointer, habsent]
  simp

/-- C5 at a concrete input: `get<int>("color")` on an empty store. -/
theorem get_absent_fails_out_of_range_witness :
    emptyMaterial._values (if false then "color" else qualifiedName emptyMaterial "color")
      = none ∧
    (emptyMaterial.get qualifiedName SampleType.int "color" false).result
      = .error .OutOfRange ∧
    (emptyMaterial.getPointer qualifiedName SampleType.int "color" false).result
      = .error .OutOfRange :=
  have h := get_absent_fails_out_of_range qualifiedName emptyMaterial SampleType.int
    "color" false rfl
  ⟨rfl, h.1, h.2.2.2.1⟩

/-- C6: when the storage key holds a value whose type is not `T`, `get<T>(name)` fails
with `TypeMismatch` and therefore returns no value. -/
theorem get_other_type_fails_type_mismatch
    (formatPropertyName : Provider Ty Val → String → String)
    (self : Provider Ty Val) (T : Ty) (name : String) (skip : Bool) (stored : Any Ty Val)
    (hpresent : self._values (if skip then name else formatPropertyName self name)
      = some stored)
    (hother : stored.type ≠ T) :
    (self.get formatPropertyName T name skip).result = .error .TypeMismatch ∧
    ∀ v : Val T, (self.get formatPropertyName T name skip).result ≠ .ok v := by
  have hres : (self.get formatPropertyName T name skip).result = .error .TypeMismatch := by
    simp only [Provider.get, hpresent, Any.cast_of_ne T stored hother]
  refine ⟨hres, fun v hv => ?_⟩
  rw [hres] at hv
  cases hv

/-- C6 at a concrete input: `get<string>("color")` on a store holding the `int` 255 under
`"color"`. -/
theorem get_other_type_fails_type_mismatch_witness :
    redMaterial._values (if true then "color" else literalName redMaterial "color")
      = some ⟨SampleType.int, (255 : Int)⟩ ∧
    (⟨SampleType.int, (255 : Int)⟩ : Any SampleType SampleType.Value).type
      ≠ SampleType.string ∧
    (redMaterial.get literalName SampleType.string "color" true).result
      = .error .TypeMismatch :=
  ⟨rfl, by decide, (get_other_type_fails_type_mismatch literalName redMaterial
    SampleType.string "color" true ⟨SampleType.int, (255 : Int)⟩ rfl (by decide)).1⟩

/-- C7: `propertyHasType<T>(name)` fails with `InvalidArgument` exactly when the storage
key is absent; when the key is present it does not fail and returns `true` if the stored
holder has type `T` and `false` if it has another type. It never changes the store and
never dispatches a signal. -/
theorem propertyHasType_spec
    (formatPropertyName : Provider Ty Val → String → String)
    (self : Provider Ty Val) (T : Ty) (name : String) (skip : Bool) :
    ((self.propertyHasType formatPropertyName T name skip).result = .error .InvalidArgument
      ↔ self._values (if skip then name else formatPropertyName self name) = none) ∧
    (∀ stored : Any Ty Val,
      self._values (if skip then name else formatPropertyName self name) = some stored →
      (self.propertyHasType formatPropertyName T name skip).result
        = .ok (decide (stored.type = T))) ∧
    (self.propertyHasType formatPropertyName T name skip).store = self ∧
    (self.propertyHasType formatPropertyName T name skip).fired = [] := by
  cases hlook : self._values (if skip then name else formatPropertyName self name) with
  | none => simp [Provider.propertyHasType, hlook]
  | some stored =>
    by_cases hty : stored.type = T
    · subst hty
      have hc : Any.cast stored.type stored = .ok stored.held := Any.cast_mk _ _
      simp [Provider.propertyHasType, hlook, hc]
    · simp [Provider.propertyHasType, hlook, Any.cast_of_ne T stored hty, hty]

end Accessors

section Mutation

variable {Ty : Type} [DecidableEq Ty] {Val : Ty → Type} [∀ t, BEq (Val t)]

/-- C1: when the storage key is absent, `set<T>(name, value)` succeeds, inserts the entry
under the storage key and dispatches `propertyAdded` then `propertyChanged`, each once, in
that order, and nothing else. -/
theorem set_absent_inserts_and_fires_added_then_changed
    (formatPropertyName : Provider Ty Val → String → String)
    (self : Provider Ty Val) (T : Ty) (name : String) (value : Val T) (skip : Bool)
    (habsent : self._values (if skip then name else formatPropertyName self name) = none) :
    (self.set formatPropertyName T name value skip).result = .ok () ∧
    (self.set formatPropertyName T name value skip).store._values
        (if skip then name else formatPropertyName self name) = some ⟨T, value⟩ ∧
    (self.set formatPropertyName T name value skip).fired.map Emission.channel
      = [Channel.propertyAdded, Channel.propertyChanged] ∧
    (self.set formatPropertyName T name value skip).fired
      = [⟨.propertyAdded, (self.set formatPropertyName T name value skip).store, name⟩,
         ⟨.propertyChanged, (self.set formatPropertyName T name value skip).store, name⟩] := by
  simp only [Provider.set, habsent]
  simp

/-- C1 at a concrete input: `set<int>("color", 255)` on an empty store whose formatting
qualifies the name. -/
theorem set_absent_inserts_and_fires_added_then_changed_witness :
    emptyMaterial._values (if false then "color" else qualifiedName emptyMaterial "color")
      = none ∧
    (emptyMaterial.set qualifiedName SampleType.int "color" (255 : Int) false).fired.map
      Emission.channel = [Channel.propertyAdded, Channel.propertyChanged] :=
  ⟨rfl, (set_absent_inserts_and_fires_added_then_changed qualifiedName emptyMaterial
    SampleType.int "color" (255 : Int) false rfl).2.2.1⟩

/-- C2 as stated fails: `zeroStore` holds the `float` `+0` under `"x"`, and `-0` compares
equal to it, yet `set<float>("x", -0)` does not leave the values map as it was: the entry
now holds `-0`. No signal is dispatched. -/
theorem set_equal_value_counterexample :
    zeroStore._values "x" = some ⟨ZeroType.float, plusZero⟩ ∧
    (plusZero == minusZero) = true ∧
    plusZero ≠ minusZero ∧
    (zeroStore.set zeroName ZeroType.float "x" minusZero true).fired = [] ∧
    (zeroStore.set zeroName ZeroType.float "x" minusZero true).store._values "x"
      = some ⟨ZeroType.float, minusZero⟩ ∧
    ¬ ((zeroStore.set zeroName ZeroType.float "x" minusZero true).fired = [] ∧
       (zeroStore.set zeroName ZeroType.float "x" minusZero true).store._values
        = zeroStore._values) := by
  have hne : plusZero ≠ minusZero := by
    intro h
    cases h
  refine ⟨rfl, rfl, hne, rfl, rfl, ?_⟩
  rintro ⟨-, hmap⟩
  have hx : (some ⟨ZeroType.float, minusZero⟩ : Option (Any ZeroType ZeroType.Value))
      = some ⟨ZeroType.float, plusZero⟩ := congrFun hmap "x"
  have hheld : minusZero = plusZero := by
    injection hx with h1
    injection h1
  exact hne hheld.symm

/-- C2 amended: when the storage key holds a value of type `T` that compares equal to
`value` under `operator==`, `set<T>(name, value)` succeeds and dispatches no signal on any
channel. It still assigns `value` to the entry: afterwards the storage key holds `value`
with type `T`, every other key, `key()` and `uuid()` are unchanged, and the store (its
values map included) is exactly what it was whenever `value` is identical to the stored
value. -/
theorem set_equal_value_fires_nothing
    (formatPropertyName : Provider Ty Val → String → String)
    (self : Provider Ty Val) (T : Ty) (name : String) (value stored : Val T) (skip : Bool)
    (hpresent : self._values (if skip then name else formatPropertyName self name)
      = some ⟨T, stored⟩)
    (hequal : (stored == value) = true) :
    (self.set formatPropertyName T name value skip).result = .ok () ∧
    (self.set formatPropertyName T name value skip).fired = [] ∧
    (self.set formatPropertyName T name value skip).store._values
        (if skip then name else formatPropertyName self name) = some ⟨T, value⟩ ∧
    (∀ other : String, other ≠ (if skip then name else formatPropertyName self name) →
      (self.set formatPropertyName T name value skip).store._values other
        = self._values other) ∧
    (self.set formatPropertyName T name value skip).store.key = self.key ∧
    (self.set formatPropertyName T name value skip).store.uuid = self.uuid ∧
    (stored = value →
      (self.set formatPropertyName T name value skip).store._values = self._values ∧
      (self.set formatPropertyName T name value skip).store = self) := by
  have hstore : self.set formatPropertyName T name value skip
      = ⟨.ok (),
         { self with
           _values := Function.update self._values
             (if skip then name else formatPropertyName self name) (some ⟨T, value⟩) },
         []⟩ := by
    simp only [Provider.set, hpresent, Any.cast_mk, hequal]
    simp
  rw [hstore]
  refine ⟨rfl, rfl, Function.update_same _ _ _, fun other hne => Function.update_noteq hne _ _,
    rfl, rfl, ?_⟩
  intro hv
  subst hv
  have hupd : Function.update self._values
      (if skip then name else formatPropertyName self name) (some ⟨T, stored⟩)
      = self._values := by
    rw [← hpresent]
    exact Function.update_eq_self _ _
  rw [hupd]
  exact ⟨rfl, rfl⟩

/-- C2 amended, at a concrete input: `set<int>("color", 255)` on a store that already
holds `255` under `"color"` dispatches nothing and leaves the store as it was. -/
theorem set_equal_value_fires_nothing_witness :
    redMaterial._values (if true then "color" else literalName redMaterial "color")
      = some ⟨SampleType.int, (255 : Int)⟩ ∧
    (((255 : Int) : SampleType.Value SampleType.int) == (255 : Int)) = true ∧
    (redMaterial.set literalName SampleType.int "color" (255 : Int) true).fired = [] ∧
    (redMaterial.set literalName SampleType.int "color" (255 : Int) true).store
      = redMaterial :=
  have h := set_equal_value_fires_nothing literalName redMaterial SampleType.int "color"
    (255 : Int) (255 : Int) true rfl rfl
  ⟨rfl, rfl, h.2.1, (h.2.2.2.2.2.2 rfl).2⟩

/-- C3: when the storage key holds a value of type `T` that compares different from
`value`, `set<T>(name, value)` succeeds, stores `value`, and dispatches `propertyChanged`
exactly once and neither `propertyAdded` nor `propertyRemoved`. -/
theorem set_different_value_fires_changed_only
    (formatPropertyName : Provider Ty Val → String → String)
    (self : Provider Ty Val) (T : Ty) (name : String) (value stored : Val T) (skip : Bool)
    (hpresent : self._values (if skip then name else formatPropertyName self name)
      = some ⟨T, stored⟩)
    (hdifferent : (stored == value) = false) :
    (self.set formatPropertyName T name value skip).result = .ok () ∧
    (self.set formatPropertyName T name value skip).fired.map Emission.channel
      = [Channel.propertyChanged] ∧
    (self.set formatPropertyName T name value skip).fired
      = [⟨.propertyChanged, (self.set formatPropertyName T name value skip).store, name⟩] ∧
    (self.set formatPropertyName T name value skip).store._values
        (if skip then name else formatPropertyName self name) = some ⟨T, value⟩ := by
  simp only [Provider.set, hpresent, Any.cast_mk, hdifferent]
  simp

/-- C3 at a concrete input: `set<int>("color", 65280)` on a store that holds `255` under
`"color"`. -/
theorem set_different_value_fires_changed_only_witness :
    redMaterial._values (if true then "color" else literalName redMaterial "color")
      = some ⟨SampleType.int, (255 : Int)⟩ ∧
    (((255 : Int) : SampleType.Value SampleType.int) == (65280 : Int)) = false ∧
    (redMaterial.set literalName SampleType.int "color" (65280 : Int) true).fired.map
      Emission.channel = [Channel.propertyChanged] :=
  ⟨rfl, rfl, (set_different_value_fires_changed_only literalName redMaterial SampleType.int
    "color" (65280 : Int) (255 : Int) true rfl rfl).2.1⟩

/-- C4 as stated fails: on a store holding the `int` 255 under `"color"`,
`set<string>("color", "red")` does not succeed, the entry keeps its type and value, and
no signal is dispatched. -/
theorem set_other_type_counterexample :
    redMaterial._values "color" = some ⟨SampleType.int, (255 : Int)⟩ ∧
    SampleType.int ≠ SampleType.string ∧
    (redMaterial.set literalName SampleType.string "color" ("red" : String) true).result
      = .error .TypeMismatch ∧
    (redMaterial.set literalName SampleType.string "color" ("red" : String) true).store._values
      "color" = some ⟨SampleType.int, (255 : Int)⟩ ∧
    ¬ ((redMaterial.set literalName SampleType.string "color" ("red" : String) true).result
        = .ok () ∧
       (redMaterial.set literalName SampleType.string "color" ("red" : String) true).store._values
        "color" = some ⟨SampleType.string, ("red" : String)⟩ ∧
       (redMaterial.set literalName SampleType.string "color" ("red" : String) true).fired.map
        Emission.channel = [Channel.propertyChanged]) := by
  refine ⟨rfl, by decide, rfl, rfl, ?_⟩
  rintro ⟨h, -⟩
  cases h

/-- C4 amended: when the storage key holds a value whose type is not `T`,
`set<T>(name, value)` fails with `TypeMismatch`, the store is left exactly as it was (the
entry keeps its type and value) and no signal is dispatched. -/
theorem set_other_type_fails_without_effect
    (formatPropertyName : Provider Ty Val → String → String)
    (self : Provider Ty Val) (T : Ty) (name : String) (value : Val T) (skip : Bool)
    (stored : Any Ty Val)
    (hpresent : self._values (if skip then name else formatPropertyName self name)
      = some stored)
    (hother : stored.type ≠ T) :
    (self.set formatPropertyName T name value skip).result = .error .TypeMismatch ∧
    (self.set formatPropertyName T name value skip).store = self ∧
    (self.set formatPropertyName T name value skip).fired = [] := by
  simp only [Provider.set, hpresent, Any.cast_of_ne T stored hother]
  simp

/-- C4 amended, at a concrete input: `set<string>("color", "red")` on a store holding the
`int` 255 under `"color"`. -/
theorem set_other_type_fails_without_effect_witness :
    redMaterial._values (if true then "color" else literalName redMaterial "color")
      = some ⟨SampleType.int, (255 : Int)⟩ ∧
    (⟨SampleType.int, (255 : Int)⟩ : Any SampleType SampleType.Value).type
      ≠ SampleType.string ∧
    (redMaterial.set literalName SampleType.string "color" ("red" : String) true).result
      = .error .TypeMismatch ∧
    (redMaterial.set literalName SampleType.string "color" ("red" : String) true).store
      = redMaterial :=
  have h := set_other_type_fails_without_effect literalName redMaterial SampleType.string
    "color" ("red" : String) true ⟨SampleType.int, (255 : Int)⟩ rfl (by decide)
  ⟨rfl, by decide, h.1, h.2.1⟩

/-- C8: every signal dispatched by `set(name, value, skip)` hands its subscribers the
store on which `set` was called (same `uuid` and `key`, in the state `set` leaves it in)
and the name exactly as the caller passed it, whatever the flag; and only the channels
`propertyAdded` and `propertyChanged` are used. -/
theorem set_emissions_carry_store_and_caller_name
    (formatPropertyName : Provider Ty Val → String → String)
    (self : Provider Ty Val) (T : Ty) (name : String) (value : Val T) (skip : Bool)
    (e : Emission Ty Val)
    (he : e ∈ (self.set formatPropertyName T name value skip).fired) :
    e.name = name ∧
    e.sender = (self.set formatPropertyName T name value skip).store ∧
    e.sender.uuid = self.uuid ∧ e.sender.key = self.key ∧
    (e.channel = .propertyAdded ∨ e.channel = .propertyChanged) := by
  unfold Provider.set at he ⊢
  cases hlook : self._values (if skip then name else formatPropertyName self name) with
  | none =>
    simp only [hlook, List.mem_cons, List.mem_singleton, List.not_mem_nil, or_false] at he ⊢
    rcases he with rfl | rfl <;> simp [Provider.uuid, Provider.key]
  | some stored =>
    simp only [hlook] at he ⊢
    cases hcast : Any.cast T stored with
    | error err => simp [hcast] at he
    | ok ptr =>
      simp only [hcast] at he ⊢
      cases hch : (!(ptr == value)) with
      | false => simp [hch] at he
      | true =>
        simp only [hch, if_true, List.mem_singleton] at he ⊢
        subst he
        simp [Provider.uuid, Provider.key]

/-- C8 at a concrete input: with a formatting that turns `"color"` into the storage key
`"material.color"`, the `propertyAdded` emission of `set<int>("color", 255)` still carries
`"color"`. -/
theorem set_emissions_carry_store_and_caller_name_witness :
    (⟨.propertyAdded,
      (emptyMaterial.set qualifiedName SampleType.int "color" (255 : Int) false).store,
      "color"⟩ : Emission SampleType SampleType.Value)
      ∈ (emptyMaterial.set qualifiedName SampleType.int "color" (255 : Int) false).fired ∧
    (⟨.propertyAdded,
      (emptyMaterial.set qualifiedName SampleType.int "color" (255 : Int) false).store,
      "color"⟩ : Emission SampleType SampleType.Value).sender.uuid = emptyMaterial.uuid :=
  have hmem : (⟨.propertyAdded,
      (emptyMaterial.set qualifiedName SampleType.int "color" (255 : Int) false).store,
      "color"⟩ : Emission SampleType SampleType.Value)
      ∈ (emptyMaterial.set qualifiedName SampleType.int "color" (255 : Int) false).fired :=
    List.mem_cons_self _ _
  ⟨hmem, (set_emissions_carry_store_and_caller_name qualifiedName emptyMaterial
    SampleType.int "color" (255 : Int) false _ hmem).2.2.1⟩

/-- C9: in both branches of `set`, every signal is dispatched on a store that already
holds the new value under the storage key: a subscriber that looks the key up during the
callback, directly or with `get<T>(key, true)`, finds `value`. -/
theorem set_emissions_see_new_value
    (formatPropertyName : Provider Ty Val → String → String)
    (self : Provider Ty Val) (T : Ty) (name : String) (value : Val T) (skip : Bool)
    (e : Emission Ty Val)
    (he : e ∈ (self.set formatPropertyName T name value skip).fired) :
    e.sender._values (if skip then name else formatPropertyName self name)
      = some ⟨T, value⟩ ∧
    (e.sender.get formatPropertyName T
      (if skip then name else formatPropertyName self name) true).result = .ok value := by
  have hval : e.sender._values (if skip then name else formatPropertyName self name)
      = some ⟨T, value⟩ := by
    unfold Provider.set at he
    cases hlook : self._values (if skip then name else formatPropertyName self name) with
    | none =>
      simp only [hlook, List.mem_cons, List.mem_singleton, List.not_mem_nil, or_false] at he
      rcases he with rfl | rfl <;> simp
    | some stored =>
      simp only [hlook] at he
      cases hcast : Any.cast T stored with
      | error err => simp [hcast] at he
      | ok ptr =>
        simp only [hcast] at he
        cases hch : (!(ptr == value)) with
        | false => simp [hch] at he
        | true =>
          simp only [hch, if_true, List.mem_singleton] at he
          subst he
          simp
  refine ⟨hval, ?_⟩
  simp only [Provider.get, if_true, hval, Any.cast_mk]

/-- C9 at a concrete input: the `propertyChanged` emission of `set<int>("color", 65280)`
on a store holding 255 carries a store in which `"color"` is already 65280. -/
theorem set_emissions_see_new_value_witness :
    (⟨.propertyChanged,
      (redMaterial.set literalName SampleType.int "color" (65280 : Int) true).store,
      "color"⟩ : Emission SampleType SampleType.Value)
      ∈ (redMaterial.set literalName SampleType.int "color" (65280 : Int) true).fired ∧
    ((redMaterial.set literalName SampleType.int "color" (65280 : Int) true).store.get
      literalName SampleType.int (if true then "color" else literalName redMaterial "color")
      true).result = .ok (65280 : Int) :=
  have hmem : (⟨.propertyChanged,
      (redMaterial.set literalName SampleType.int "color" (65280 : Int) true).store,
      "color"⟩ : Emission SampleType SampleType.Value)
      ∈ (redMaterial.set literalName SampleType.int "color" (65280 : Int) true).fired :=
    List.mem_cons_self _ _
  ⟨hmem, (set_emissions_see_new_value literalName redMaterial SampleType.int "color"
    (65280 : Int) true _ hmem).2⟩

/-- C10: round trip on a literal key. If `k` is absent or holds a value of type `T`, then
`set<T>(k, v, true)` succeeds and on the resulting store `hasProperty(k, true)` and
`propertyHasType<T>(k, true)` return `true` and `get<T>(k, true)` returns `v`. -/
theorem set_then_query_round_trip
    (formatPropertyName : Provider Ty Val → String → String)
    (self : Provider Ty Val) (T : Ty) (k : String) (v : Val T)
    (hslot : self._values k = none ∨ ∃ stored : Val T, self._values k = some ⟨T, stored⟩) :
    (self.set formatPropertyName T k v true).result = .ok () ∧
    ((self.set formatPropertyName T k v true).store.hasProperty formatPropertyName k
      true).result = .ok true ∧
    ((self.set formatPropertyName T k v true).store.propertyHasType formatPropertyName T k
      true).result = .ok true ∧
    ((self.set formatPropertyName T k v true).store.get formatPropertyName T k
      true).result = .ok v := by
  have hstore : (self.set formatPropertyName T k v true).result = .ok () ∧
      (self.set formatPropertyName T k v true).store._values k = some ⟨T, v⟩ := by
    rcases hslot with habsent | ⟨stored, hpresent⟩
    · simp [Provider.set, habsent]
    · cases hch : (!(stored == v)) <;>
        simp [Provider.set, hpresent, Any.cast_mk, hch]
  obtain ⟨hres, hval⟩ := hstore
  refine ⟨hres, ?_, ?_, ?_⟩
  · simp [Provider.hasProperty, hval]
  · simp [Provider.propertyHasType, hval, Any.cast_mk]
  · simp [Provider.get, hval, Any.cast_mk]

/-- C10 at a concrete input: `set<int>("color", 65280, true)` on a store holding the
`int` 255 under `"color"`, then `get<int>("color", true)`. -/
theorem set_then_query_round_trip_witness :
    (redMaterial._values "color" = none ∨
      ∃ stored : SampleType.Value SampleType.int,
        redMaterial._values "color" = some ⟨SampleType.int, stored⟩) ∧
    ((redMaterial.set qualifiedName SampleType.int "color" (65280 : Int) true).store.get
      qualifiedName SampleType.int "color" true).result = .ok (65280 : Int) :=
  ⟨Or.inr ⟨(255 : Int), rfl⟩, (set_then_query_round_trip qualifiedName redMaterial
    SampleType.int "color" (65280 : Int) (Or.inr ⟨(255 : Int), rfl⟩)).2.2.2⟩

/-- C11: frame of `set` on a literal key. `set<T>(k, v, true)` leaves every key other
than `k` exactly as it was (present or absent, same type and value), the set of keys
afterwards is the previous set of keys with `k` added, and `key()` and `uuid()` are
unchanged. This holds whether the call succeeds or fails. -/
theorem set_frame
    (formatPropertyName : Provider Ty Val → String → String)
    (self : Provider Ty Val) (T : Ty) (k : String) (v : Val T) :
    (∀ other : String, other ≠ k →
      (self.set formatPropertyName T k v true).store._values other = self._values other) ∧
    {x | ((self.set formatPropertyName T k v true).store._values x).isSome = true}
      = insert k {x | (self._values x).isSome = true} ∧
    (self.set formatPropertyName T k v true).store.key = self.key ∧
    (self.set formatPropertyName T k v true).store.uuid = self.uuid := by
  have hcases :
      ((self.set formatPropertyName T k v true).store = self ∧
        (self._values k).isSome = true) ∨
      (self.set formatPropertyName T k v true).store
        = { self with _values := Function.update self._values k (some ⟨T, v⟩) } := by
    unfold Provider.set
    cases hlook : self._values k with
    | none =>
      right
      simp [hlook]
    | some stored =>
      cases hcast : Any.cast T stored with
      | error err =>
        left
        simp [hlook, hcast]
      | ok ptr =>
        right
        cases hch : (!(ptr == v)) <;> simp [hlook, hcast, hch]
  rcases hcases with ⟨hsame, hpresent⟩ | hupd
  · rw [hsame]
    refine ⟨fun _ _ => rfl, ?_, rfl, rfl⟩
    have hmem : k ∈ {x | (self._values x).isSome = true} := hpresent
    exact (Set.insert_eq_of_mem hmem).symm
  · rw [hupd]
    refine ⟨fun other hne => Function.update_noteq hne _ _, ?_, rfl, rfl⟩
    ext x
    by_cases hx : x = k
    · subst hx
      simp
    · simp [Function.update_noteq hx, hx]

end Mutation

end data

namespace scene

/-- Converting a non-negative value reduces it modulo `2 ^ w`. -/
theorem LayoutMask.ofInt_natCast (w n : Nat) :
    LayoutMask.ofInt w (n : Int) = n % 2 ^ w := by
  have h : ((n : Int) % (2 : Int) ^ w) = ((n % 2 ^ w : Nat) : Int) := by
    push_cast
    rfl
  rw [LayoutMask.ofInt, h, Int.toNat_natCast]

/-- Converting `-1` gives the pattern with all `w` bits set. -/
theorem LayoutMask.ofInt_neg_one (w : Nat) : LayoutMask.ofInt w (-1) = 2 ^ w - 1 := by
  have hpos : 0 < 2 ^ w := Nat.pow_pos (by decide)
  have hsplit : (-1 : Int) = ((2 ^ w - 1 : Nat) : Int) + (2 : Int) ^ w * (-1) := by
    rw [Nat.cast_sub hpos]
    push_cast
    ring
  rw [LayoutMask.ofInt, hsplit, Int.add_mul_emod_self_left]
  have h := LayoutMask.ofInt_natCast w (2 ^ w - 1)
  rw [LayoutMask.ofInt] at h
  rw [h]
  exact Nat.mod_eq_of_lt (Nat.sub_lt hpos (by decide))

/-- The mask `NOTHING` is the zero pattern. -/
theorem Layout.NOTHING_eq (w : Nat) : Layout.NOTHING w = 0 := by
  simp [Layout.NOTHING, LayoutMask.ofInt]

/-- A shifted one that fits in the width is converted unchanged. -/
theorem LayoutMask.ofInt_one_shiftLeft (w k : Nat) (h : k < w) :
    LayoutMask.ofInt w ((1 <<< k : Nat) : Int) = 2 ^ k := by
  rw [LayoutMask.ofInt_natCast, Nat.one_shiftLeft]
  exact Nat.mod_eq_of_lt (Nat.pow_lt_pow_right (by decide) h)

/-- C12: for a mask type wide enough to hold bit 16, `DEFAULT`, `STATIC` and
`IGNORE_RAYCASTING` are the single-bit masks of bits 0, 1 and 16 and are pairwise
disjoint; `NOTHING` has no bit set; `EVERYTHING` has all `w` bits set;
`DEFAULT_RAYCASTING` is `EVERYTHING` with exactly bit 16 cleared, so it is disjoint from
`IGNORE_RAYCASTING` and contains both `DEFAULT` and `STATIC`. -/
theorem layout_masks (w : Nat) (hw : 16 < w) :
    (∀ i, (Layout.DEFAULT w).testBit i = decide (i = 0)) ∧
    (∀ i, (Layout.STATIC w).testBit i = decide (i = 1)) ∧
    (∀ i, (Layout.IGNORE_RAYCASTING w).testBit i = decide (i = 16)) ∧
    Layout.DEFAULT w &&& Layout.STATIC w = Layout.NOTHING w ∧
    Layout.DEFAULT w &&& Layout.IGNORE_RAYCASTING w = Layout.NOTHING w ∧
    Layout.STATIC w &&& Layout.IGNORE_RAYCASTING w = Layout.NOTHING w ∧
    (∀ i, (Layout.NOTHING w).testBit i = false) ∧
    (∀ i, (Layout.EVERYTHING w).testBit i = decide (i < w)) ∧
    (∀ i, (Layout.DEFAULT_RAYCASTING w).testBit i = (decide (i < w) && decide (i ≠ 16))) ∧
    Layout.DEFAULT_RAYCASTING w &&& Layout.IGNORE_RAYCASTING w = Layout.NOTHING w ∧
    Layout.DEFAULT_RAYCASTING w &&& Layout.DEFAULT w = Layout.DEFAULT w ∧
    Layout.DEFAULT_RAYCASTING w &&& Layout.STATIC w = Layout.STATIC w := by
  have hN : Layout.NOTHING w = 0 := Layout.NOTHING_eq w
  have hE : Layout.EVERYTHING w = 2 ^ w - 1 := LayoutMask.ofInt_neg_one w
  have hD : Layout.DEFAULT w = 2 ^ 0 := LayoutMask.ofInt_one_shiftLeft w 0 (by omega)
  have hS : Layout.STATIC w = 2 ^ 1 := LayoutMask.ofInt_one_shiftLeft w 1 (by omega)
  have hI : Layout.IGNORE_RAYCASTING w = 2 ^ 16 := LayoutMask.ofInt_one_shiftLeft w 16 hw
  have hbD : ∀ i, (Layout.DEFAULT w).testBit i = decide (i = 0) := by
    intro i
    rw [hD, Nat.testBit_two_pow]
    by_cases h : i = 0 <;> simp [h, eq_comm]
  have hbS : ∀ i, (Layout.STATIC w).testBit i = decide (i = 1) := by
    intro i
    rw [hS, Nat.testBit_two_pow]
    by_cases h : i = 1 <;> simp [h, eq_comm]
  have hbI : ∀ i, (Layout.IGNORE_RAYCASTING w).testBit i = decide (i = 16) := by
    intro i
    rw [hI, Nat.testBit_two_pow]
    by_cases h : i = 16 <;> simp [h, eq_comm]
  have hbN : ∀ i, (Layout.NOTHING w).testBit i = false := by
    intro i
    rw [hN]
    exact Nat.zero_testBit i
  have hbE : ∀ i, (Layout.EVERYTHING w).testBit i = decide (i < w) := by
    intro i
    rw [hE, Nat.testBit_two_pow_sub_one]
  have hbR : ∀ i, (Layout.DEFAULT_RAYCASTING w).testBit i
      = (decide (i < w) && decide (i ≠ 16)) := by
    intro i
    rw [Layout.DEFAULT_RAYCASTING, Nat.testBit_xor, hbE, hbI]
    by_cases h16 : i = 16
    · subst h16
      simp [hw]
    · simp [h16]
  refine ⟨hbD, hbS, hbI, ?_, ?_, ?_, hbN, hbE, hbR, ?_, ?_, ?_⟩
  · apply Nat.eq_of_testBit_eq
    intro i
    rw [Nat.testBit_and, hbD, hbS, hbN]
    by_cases h : i = 0 <;> simp [h]
  · apply Nat.eq_of_testBit_eq
    intro i
    rw [Nat.testBit_and, hbD, hbI, hbN]
    by_cases h : i = 0 <;> simp [h]
  · apply Nat.eq_of_testBit_eq
    intro i
    rw [Nat.testBit_and, hbS, hbI, hbN]
    by_cases h : i = 1 <;> simp [h]
  · apply Nat.eq_of_testBit_eq
    intro i
    rw [Nat.testBit_and, hbR, hbI, hbN]
    by_cases h : i = 16 <;> simp [h]
  · apply Nat.eq_of_testBit_eq
    intro i
    rw [Nat.testBit_and, hbR, hbD]
    by_cases h : i = 0
    · subst h
      simp
      omega
    · simp [h]
  · apply Nat.eq_of_testBit_eq
    intro i
    rw [Nat.testBit_and, hbR, hbS]
    by_cases h : i = 1
    · subst h
      simp
      omega
    · simp [h]

/-- C12 at a concrete input: 32-bit masks. `DEFAULT_RAYCASTING` is `0xFFFEFFFF`, and it
is disjoint from `IGNORE_RAYCASTING = 0x10000`. -/
theorem layout_masks_witness :
    16 < 32 ∧
    Layout.EVERYTHING 32 = 0xFFFFFFFF ∧
    Layout.IGNORE_RAYCASTING 32 = 0x10000 ∧
    Layout.DEFAULT_RAYCASTING 32 = 0xFFFEFFFF ∧
    Layout.DEFAULT_RAYCASTING 32 &&& Layout.IGNORE_RAYCASTING 32 = Layout.NOTHING 32 ∧
    Layout.DEFAULT_RAYCASTING 32 &&& Layout.DEFAULT 32 = Layout.DEFAULT 32 ∧
    Layout.DEFAULT_RAYCASTING 32 &&& Layout.STATIC 32 = Layout.STATIC 32 :=
  have h := layout_masks 32 (by decide)
  ⟨by decide, by decide, by decide, by decide, h.2.2.2.2.2.2.2.2.2.1, h.2.2.2.2.2.2.2.2.2.2.1,
    h.2.2.2.2.2.2.2.2.2.2.2⟩

end scene
end minko
